import Mathlib

/-!
Shallow embedding of `src/app.py` (ClaimShield, a Streamlit single-page app)
and proofs about its session/authorization behaviour, persistence calls,
OCR branch, and PDF export.

External services (Supabase auth/database, OCR endpoint, Groq LLM, fpdf)
are modelled at their call interface: the result an external call would
return is passed in as an explicit argument, and the effects the script
performs (messages shown, rows inserted, widgets rendered) are returned
as explicit data.  Every definition mirrors the corresponding lines of
`src/app.py`; line numbers are given in the doc comments.
-/

namespace ClaimShield

/-- A user object as returned by the identity provider; the script consumes
only `id` and `email` (spec section 3). -/
structure User where
  id : String
  email : String
deriving DecidableEq, Repr

/-- `st.session_state` as used by the script: the keys written are
`user` (app.py:111), `raw_text` (app.py:58) and `appeal_letter` (app.py:67).
A missing key is `none`. -/
structure SessionState where
  user : Option User
  raw_text : Option String
  appeal_letter : Option String
deriving DecidableEq, Repr

/-- The fresh session: no keys set. -/
def initialSession : SessionState := ⟨none, none, none⟩

/-- A message surfaced to the user via `st.error` / `st.success`. -/
inductive Msg where
  | error (text : String)
  | success (text : String)
deriving DecidableEq, Repr

/-- The hardcoded operator address compared against at app.py:132. -/
def adminEmail : String := "complyra86@gmail.com"

/-- The spec's session/authorization states (spec section 4.1). -/
inductive AuthState where
  | ANONYMOUS
  | AUTHENTICATED_USER
  | AUTHENTICATED_ADMIN
deriving DecidableEq, Repr

/-- The authorization state a given session is in, read off the two checks
the script performs: `if user not in st.session_state` (app.py:117) and
`st.session_state[user].email == "complyra86@gmail.com"` (app.py:132). -/
def authStateOf (s : SessionState) : AuthState :=
  match s.user with
  | none => .ANONYMOUS
  | some u => if u.email = adminEmail then .AUTHENTICATED_ADMIN else .AUTHENTICATED_USER

/-- `sign_up` (app.py:101-106): calls the provider's password sign-up; on
success shows a success message, on a caught exception shows the exception
interpolated after an `Error: ` marker.  It never writes to
`st.session_state`.  The provider call's outcome is the `providerResult`
argument (`Except` error text / created account). -/
def sign_up (s : SessionState) (providerResult : Except String Unit) :
    SessionState × List Msg :=
  match providerResult with
  | .ok _ => (s, [Msg.success "Registration successful! You can now log in."])
  | .error e => (s, [Msg.error ("Error: " ++ e)])

/-- `sign_in` (app.py:108-114): calls the provider's password sign-in; on
success stores `res.user` in `st.session_state[user]` (then `st.rerun()`);
on any caught exception shows the fixed message
`Invalid login credentials.` and leaves the session untouched. -/
def sign_in (s : SessionState) (providerResult : Except String User) :
    SessionState × List Msg :=
  match providerResult with
  | .ok u => ({ s with user := some u }, [])
  | .error _ => (s, [Msg.error "Invalid login credentials."])

/-- The provider auth operations the script ever invokes:
`supabase.auth.sign_up` at app.py:103 and
`supabase.auth.sign_in_with_password` at app.py:110.  No other
`supabase.auth` call appears anywhere in `src/app.py`. -/
def authOperationsInvoked : List String :=
  ["sign_up", "sign_in_with_password"]

/-- A JSON-ish field value in an insert payload sent to the database:
the script sends strings and the (decimal) bill amount, modelled as `ℚ`. -/
inductive Value where
  | str (s : String)
  | num (q : ℚ)
deriving DecidableEq, Repr

/-- An insert payload: the dict the script builds, as a key-value list. -/
abbrev Payload := List (String × Value)

/-- `save_to_supabase` (app.py:34-36): builds exactly the dict
`data = { insurance_company, bill_amount, appeal_letter }` and sends one
insert of it to table `claims`.  This is the full payload - the script
adds no other field (in particular no `user_id`). -/
def save_to_supabase (company : String) (amount : ℚ) (letter : String) : Payload :=
  [("insurance_company", Value.str company),
   ("bill_amount", Value.num amount),
   ("appeal_letter", Value.str letter)]

/-- Effect of one `table("claims").insert(data).execute()` on the sequence
of rows the table has received: it appends the one payload. -/
def tableInsert (rows : List Payload) (data : Payload) : List Payload :=
  rows ++ [data]

/-- The save-form submit path (app.py:81-82): one call to
`save_to_supabase(ins_co, amt, st.session_state[appeal_letter])`,
hence one insert of that one payload. -/
def save_case_submit (rows : List Payload) (company : String) (amount : ℚ)
    (letter : String) : List Payload :=
  tableInsert rows (save_to_supabase company amount letter)

/-- A stored row of the `claims` table with the column set of spec
section 3 (the columns beyond the inserted ones are server-assigned). -/
structure ClaimRow where
  insurance_company : String
  bill_amount : ℚ
  appeal_letter : String
  user_id : String
  created_at : String
  status : String
deriving DecidableEq, Repr

/-- The tab2 dashboard query (app.py:90):
`supabase.table("claims").select("insurance_company, bill_amount").execute()`.
No `.eq` (or any other) filter is applied, so every stored row is returned,
projected to the two requested columns.  The query does not depend on the
session at all. -/
def dashboardQuery (db : List ClaimRow) : List (String × ℚ) :=
  db.map (fun r => (r.insurance_company, r.bill_amount))

/-- The admin analytics query (app.py:136):
`supabase.table("claims").select("*").execute()` - all rows, all columns. -/
def adminQuery (db : List ClaimRow) : List ClaimRow := db

/-- One entry of the OCR response's `ParsedResults` list. -/
structure OcrParsedResult where
  ParsedText : String
deriving DecidableEq, Repr

/-- The OCR endpoint's JSON response as consumed by the script:
`res.get(ParsedResults)` - either absent (`none`) or a list. -/
structure OcrResponse where
  ParsedResults : Option (List OcrParsedResult)
deriving DecidableEq, Repr

/-- The `Extract and Analyze` button branch (app.py:50-68).  The OCR call's
decoded response is `res`; the LLM chat-completion call is the oracle
`draft` (it is only invoked inside the truthy branch).  Python's
`if res.get(ParsedResults):` is truthy exactly on a present, non-empty
list; the branch then reads `res[ParsedResults][0][ParsedText]`, stores it
in `raw_text`, calls the LLM, stores the completion in `appeal_letter` and
shows `Analysis Complete!`.  Otherwise nothing at all happens.  Returned:
the new session, the messages shown, and whether the LLM was called. -/
def extract_and_analyze (s : SessionState) (res : OcrResponse)
    (draft : String → String) : SessionState × List Msg × Bool :=
  match res.ParsedResults with
  | some (r :: _) =>
      let text := r.ParsedText
      ({ s with raw_text := some text, appeal_letter := some (draft text) },
       [Msg.success "Analysis Complete!"], true)
  | some [] => (s, [], false)
  | none => (s, [], false)

/-- One drawing command issued to the fpdf document builder, recording the
arguments `generate_pdf` passes. -/
inductive PdfCmd where
  | addPage
  | setFont (family style : String) (size : ℕ)
  | cell (w h : ℕ) (txt : String) (ln : Bool) (align : String)
  | lineBreak (h : ℕ)
  | multiCell (w h : ℕ) (txt : String)
deriving DecidableEq, Repr

/-- An fpdf document under construction: the commands issued so far. -/
structure FPDF where
  cmds : List PdfCmd
deriving DecidableEq, Repr

def FPDF.add_page (p : FPDF) : FPDF := ⟨p.cmds ++ [PdfCmd.addPage]⟩

def FPDF.set_font (p : FPDF) (family style : String) (size : ℕ) : FPDF :=
  ⟨p.cmds ++ [PdfCmd.setFont family style size]⟩

def FPDF.cell (p : FPDF) (w h : ℕ) (txt : String) (ln : Bool) (align : String) : FPDF :=
  ⟨p.cmds ++ [PdfCmd.cell w h txt ln align]⟩

def FPDF.ln (p : FPDF) (h : ℕ) : FPDF := ⟨p.cmds ++ [PdfCmd.lineBreak h]⟩

def FPDF.multi_cell (p : FPDF) (w h : ℕ) (txt : String) : FPDF :=
  ⟨p.cmds ++ [PdfCmd.multiCell w h txt]⟩

/-- The text a command renders onto the page (empty for non-text commands;
`multi_cell` lays its text out as a wrapped paragraph, `cell` as a single
line - the characters rendered are the text verbatim either way). -/
def PdfCmd.renderedText : PdfCmd → String
  | PdfCmd.cell _ _ t _ _ => t
  | PdfCmd.multiCell _ _ t => t
  | _ => ""

/-- Serialization of the issued commands into the content of the byte
stream, in order (one line per command). -/
def renderCmds : List PdfCmd → List Char
  | [] => []
  | c :: cs => (PdfCmd.renderedText c).data ++ ('\n' :: renderCmds cs)

/-- Modelled from the fpdf library contract (fpdf is an external library,
not part of this repository): `pdf.output()` returns the document as a
byte stream that begins with the standard `%PDF-` version header, embeds
the rendered text of each issued command in the page content, and ends
with the end-of-file marker.  The byte stream is modelled as a list of
characters. -/
def FPDF.output (p : FPDF) : List Char :=
  "%PDF-1.4\n".data ++ (renderCmds p.cmds ++ "%%EOF".data)

/-- `generate_pdf` (app.py:23-31), call for call: new document, one page,
bold 16pt Helvetica, a centered full-width title cell
`FORMAL MEDICAL APPEAL`, a 10-unit line break, 12pt Helvetica, the letter
text as one `multi_cell` wrapped paragraph, then `pdf.output()`.  The
function wraps nothing in a handler: a library failure would propagate. -/
def generate_pdf (text : String) : List Char :=
  let pdf : FPDF := ⟨[]⟩
  let pdf := pdf.add_page
  let pdf := pdf.set_font "Helvetica" "B" 16
  let pdf := pdf.cell 0 10 "FORMAL MEDICAL APPEAL" true "C"
  let pdf := pdf.ln 10
  let pdf := pdf.set_font "Helvetica" "" 12
  let pdf := pdf.multi_cell 0 10 text
  pdf.output

/-- One observable effect of a top-to-bottom run of the script (a render
pass with no widget interaction), in source order. -/
inductive Effect where
  | renderTitle
  | renderUploader
  | renderLetterEditor
  | renderSaveForm
  | generatePdfAndDownloadButton
  | dashboardQuery
  | renderLoginForm
  | renderRegisterForm
  | stopRender
  | renderAdminPanel
  | renderSidebar
  | renderFooter
deriving DecidableEq, Repr

/-- The effects of one top-to-bottom run of `src/app.py`, in the order the
source performs them.  Lines 39-95 (title, tab1, tab2 with its database
query at line 90) run first; the editor / save form / PDF download render
iff `appeal_letter` is in the session (line 72); only THEN comes the login
gate at line 117, which renders the login and register tabs and calls
`st.stop()` (line 129) when no user is in the session, so nothing after
line 129 runs; otherwise the admin panel renders iff the session email
equals the operator address (line 132), then the sidebar and the footer. -/
def script (s : SessionState) : List Effect :=
  [Effect.renderTitle, Effect.renderUploader] ++
  (if s.appeal_letter.isSome then
    [Effect.renderLetterEditor, Effect.renderSaveForm,
     Effect.generatePdfAndDownloadButton]
   else []) ++
  [Effect.dashboardQuery] ++
  (match s.user with
   | none => [Effect.renderLoginForm, Effect.renderRegisterForm, Effect.stopRender]
   | some u =>
      (if u.email = adminEmail then [Effect.renderAdminPanel] else []) ++
      [Effect.renderSidebar, Effect.renderFooter])

/-- One widget placed in the sidebar. -/
inductive SidebarItem where
  | subheader (t : String)
  | button (label : String)
  | image (url : String)
  | title (t : String)
  | info (t : String)
  | warning (t : String)
deriving DecidableEq, Repr

def SidebarItem.isButton : SidebarItem → Bool
  | SidebarItem.button _ => true
  | _ => false

/-- The sidebar contents for an authenticated session (the sidebar only
renders past the gate): the admin block writes a subheader and an
analytics button into the sidebar iff the session email is the operator
address (app.py:132-134); then the `with st.sidebar` block (app.py:140-152)
adds a logo image, a title, the static how-it-works text and the SSN
warning.  There is no logout control and no identity display anywhere in
the block. -/
def sidebarItems (u : User) : List SidebarItem :=
  (if u.email = adminEmail then
    [SidebarItem.subheader "👑 Admin Mode",
     SidebarItem.button "View Global Analytics"]
   else []) ++
  [SidebarItem.image "https://img.icons8.com/fluency/96/shield.png",
   SidebarItem.title "ClaimShield Guide",
   SidebarItem.info "How it works: 1. Upload: Take a clear photo of your bill. 2. Analyze: Our AI scans for Federal law violations. 3. Appeal: Download the PDF and send it to your insurer. Success Rate Tip: Appeals sent via Certified Mail are 40% more likely to get a response!",
   SidebarItem.warning "⚠️ Reminder: Always redact your Social Security Number (SSN) before uploading for extra privacy."]

/-! ### Concrete fixtures used by counterexamples and witnesses -/

/-- A non-admin account. -/
def userA : User := ⟨"user-A", "alice@example.com"⟩

/-- A second, distinct non-admin account. -/
def userB : User := ⟨"user-B", "bob@example.com"⟩

/-- A session authenticated as `userA`. -/
def sessionA : SessionState := ⟨some userA, none, none⟩

/-- A stored claim row owned by `userA`. -/
def rowA : ClaimRow :=
  ⟨"Acme Health", 100, "letter A", "user-A", "2026-01-01T00:00:00Z", "new"⟩

/-- A stored claim row owned by `userB`. -/
def rowB : ClaimRow :=
  ⟨"Umbrella Corp", 250, "letter B", "user-B", "2026-01-02T00:00:00Z", "new"⟩

/-! ### Theorems for the claims -/

/-- C1: evaluation at the failing input.  The session is authenticated as
the non-admin user A, the table holds one row owned by A and one owned by
B, yet the tab2 dashboard query (app.py:90) - which applies no `user_id`
filter and does not consult the session at all - returns both rows,
including B's.  This refutes the claim that a non-admin session's claim
history query returns only rows whose `user_id` equals the session's id. -/
theorem C1_code_evaluation :
    authStateOf sessionA = AuthState.AUTHENTICATED_USER ∧
    rowB.user_id ≠ userA.id ∧
    dashboardQuery [rowA, rowB] =
      [("Acme Health", 100), ("Umbrella Corp", 250)] := by
  refine ⟨rfl, by decide, rfl⟩

/-- C2 counterexample: the insert payload the application builds for
company `Acme Health`, amount 1200.50 and the letter text contains no
`user_id` field at all (app.py:34-36), so the application does not set
the inserted row's `user_id` to the acting session's id. -/
theorem C2_counterexample :
    (save_to_supabase "Acme Health" (1200.5 : ℚ) "Dear Sir/Madam...").lookup
      "user_id" = none := by
  decide

/-- C2 (amended): a save submit performs exactly one insert, whose payload
holds exactly the literal company, amount and letter values and nothing
else; in particular the application sends no `user_id` field, so the
session's User.id is not attached to the row by the application. -/
theorem C2_amended (rows : List Payload) (company : String) (amount : ℚ)
    (letter : String) :
    save_case_submit rows company amount letter =
      rows ++ [[("insurance_company", Value.str company),
                ("bill_amount", Value.num amount),
                ("appeal_letter", Value.str letter)]] ∧
    (save_case_submit rows company amount letter).length = rows.length + 1 ∧
    (save_to_supabase company amount letter).lookup "user_id" = none := by
  refine ⟨rfl, ?_, rfl⟩
  simp [save_case_submit, tableInsert]

/-- C6: a sign-in whose provider call raises any error whatsoever leaves
the session exactly as it was (no user stored, so an anonymous session
stays anonymous) and shows the one fixed message
`Invalid login credentials.`, identical for every error. -/
theorem C6_sign_in_error (s : SessionState) (e : String) :
    (sign_in s (Except.error e)).fst = s ∧
    (sign_in s (Except.error e)).snd = [Msg.error "Invalid login credentials."] ∧
    authStateOf (sign_in s (Except.error e)).fst = authStateOf s :=
  ⟨rfl, rfl, rfl⟩

/-- C7: when the OCR response's `ParsedResults` is an empty list or absent,
the Extract-and-Analyze branch is a silent no-op: the session (including
`raw_text` and `appeal_letter`) is unchanged, no message of any kind is
shown, and the LLM drafting call is not made. -/
theorem C7_empty_ocr_noop (s : SessionState) (draft : String → String) :
    extract_and_analyze s ⟨some []⟩ draft = (s, [], false) ∧
    extract_and_analyze s ⟨none⟩ draft = (s, [], false) ∧
    (extract_and_analyze s ⟨some []⟩ draft).fst.appeal_letter = s.appeal_letter ∧
    (extract_and_analyze s ⟨some []⟩ draft).fst.raw_text = s.raw_text :=
  ⟨rfl, rfl, rfl, rfl⟩

/-- C8 counterexample: a caught sign-up failure is NOT shown as a generic
message: `sign_up` interpolates the provider's error into the message
(app.py:106), so the surfaced text embeds provider-specific detail and
two different provider errors produce two different messages. -/
theorem C8_counterexample :
    (sign_up initialSession (Except.error "User already registered")).snd =
      [Msg.error "Error: User already registered"] ∧
    (sign_up initialSession (Except.error "User already registered")).snd ≠
      (sign_up initialSession (Except.error "Network timeout")).snd := by
  refine ⟨rfl, by decide⟩

/-- C8 (amended): every caught authentication failure shows a message and
leaves the session untouched, with no retry; but only the sign-in path
shows a fixed generic message - the sign-up path surfaces the provider's
error detail after an `Error: ` marker. -/
theorem C8_amended (s : SessionState) (e : String) :
    (sign_in s (Except.error e)).snd = [Msg.error "Invalid login credentials."] ∧
    (sign_up s (Except.error e)).snd = [Msg.error ("Error: " ++ e)] ∧
    (sign_in s (Except.error e)).fst = s ∧
    (sign_up s (Except.error e)).fst = s :=
  ⟨rfl, rfl, rfl, rfl⟩

/-- C10: `sign_up` never writes a user into the session state, whatever the
provider returns: the whole session is returned unchanged, so after a
successful registration the authorization state is exactly what it was
(in particular an anonymous session stays anonymous until a sign-in
succeeds). -/
theorem C10_sign_up_frame (s : SessionState) (r : Except String Unit) :
    (sign_up s r).fst = s ∧ authStateOf (sign_up s r).fst = authStateOf s := by
  cases r with
  | ok _ => exact ⟨rfl, rfl⟩
  | error _ => exact ⟨rfl, rfl⟩

/-- C3 counterexample: in the anonymous fresh session the run of the
script still renders the upload widget and executes the tab2 database
query, because lines 41-95 run before the login gate at line 117; so it is
false that while `ANONYMOUS` only the login/registration form is reachable
and every other piece of functionality is unreachable. -/
theorem C3_counterexample :
    authStateOf initialSession = AuthState.ANONYMOUS ∧
    Effect.renderUploader ∈ script initialSession ∧
    Effect.dashboardQuery ∈ script initialSession := by
  refine ⟨rfl, by decide, by decide⟩

/-- C3 (amended): while `ANONYMOUS` the login and registration forms
render and `st.stop()` is the last effect, so everything placed after the
gate (admin panel, sidebar, footer) is unreachable; but the functionality
placed before the gate - the upload tab and the tab2 dashboard query, and,
when a letter is in the session, the editor, save form and PDF download -
still renders. -/
theorem C3_amended (s : SessionState) (h : s.user = none) :
    Effect.renderLoginForm ∈ script s ∧
    Effect.renderRegisterForm ∈ script s ∧
    (script s).getLast? = some Effect.stopRender ∧
    Effect.renderAdminPanel ∉ script s ∧
    Effect.renderSidebar ∉ script s ∧
    Effect.renderFooter ∉ script s ∧
    Effect.renderUploader ∈ script s ∧
    Effect.dashboardQuery ∈ script s := by
  cases s with
  | mk user raw letter =>
      cases h
      cases letter <;> simp [script]

/-- C3 witness: the amended statement instantiated at the fresh anonymous
session. -/
theorem C3_amended_witness :
    initialSession.user = none ∧
    (Effect.renderLoginForm ∈ script initialSession ∧
     Effect.renderRegisterForm ∈ script initialSession ∧
     (script initialSession).getLast? = some Effect.stopRender ∧
     Effect.renderAdminPanel ∉ script initialSession ∧
     Effect.renderSidebar ∉ script initialSession ∧
     Effect.renderFooter ∉ script initialSession ∧
     Effect.renderUploader ∈ script initialSession ∧
     Effect.dashboardQuery ∈ script initialSession) :=
  ⟨rfl, C3_amended initialSession rfl⟩

/-- C4: after a successful sign-in storing the returned user, the session
is `AUTHENTICATED_ADMIN` iff the user's email is exactly the hardcoded
operator address, and `AUTHENTICATED_USER` otherwise; and the admin panel
renders in the ensuing run iff that same equality holds, so a non-admin
session never reaches the admin view. -/
theorem C4_admin_iff (s : SessionState) (u : User) :
    (authStateOf (sign_in s (Except.ok u)).fst = AuthState.AUTHENTICATED_ADMIN
      ↔ u.email = adminEmail) ∧
    (authStateOf (sign_in s (Except.ok u)).fst = AuthState.AUTHENTICATED_USER
      ↔ u.email ≠ adminEmail) ∧
    (Effect.renderAdminPanel ∈ script (sign_in s (Except.ok u)).fst
      ↔ u.email = adminEmail) := by
  by_cases h : u.email = adminEmail <;>
    simp [sign_in, authStateOf, script, h]

/-- C5 counterexample: the script invokes no sign-out operation on the
identity provider, and the sidebar holds no logout control: for the
non-admin user the sidebar has no button at all, and for the operator the
only button is the global-analytics one. -/
theorem C5_counterexample :
    "sign_out" ∉ authOperationsInvoked ∧
    (sidebarItems userA).filter SidebarItem.isButton = [] ∧
    (sidebarItems ⟨"user-0", "complyra86@gmail.com"⟩).filter SidebarItem.isButton
      = [SidebarItem.button "View Global Analytics"] := by
  refine ⟨by decide, by decide, by decide⟩

/-- C5 (amended): the system provides no sign-out operation - the only
identity-provider operations invoked are password sign-up and password
sign-in, and no sidebar button other than the admin analytics button
exists for any user - so the only way an `AUTHENTICATED_*` session becomes
`ANONYMOUS` is implicit: the authorization state is `ANONYMOUS` exactly
when no user exists in session state. -/
theorem C5_amended (u : User) (s : SessionState) :
    "sign_out" ∉ authOperationsInvoked ∧
    (∀ item ∈ (sidebarItems u).filter SidebarItem.isButton,
      item = SidebarItem.button "View Global Analytics") ∧
    (authStateOf s = AuthState.ANONYMOUS ↔ s.user = none) := by
  refine ⟨by decide, ?_, ?_⟩
  · by_cases h : u.email = adminEmail <;>
      simp [sidebarItems, h, SidebarItem.isButton]
  · cases hs : s.user with
    | none => simp [authStateOf, hs]
    | some v =>
        simp only [authStateOf, hs]
        by_cases hv : v.email = adminEmail <;> simp [hv]

/-- The closed form of the modelled PDF byte stream: header, two blank
content lines, the title line, three blank/spacing lines, the letter text,
a final line break, and the end-of-file marker. -/
theorem generate_pdf_closed (text : String) :
    generate_pdf text =
      "%PDF-1.4\n\n\nFORMAL MEDICAL APPEAL\n\n\n".data ++
        ((text.data ++ ['\n']) ++ "%%EOF".data) := rfl

/-- C9: for every letter text, `generate_pdf` produces a non-empty byte
stream that begins with the PDF header `%PDF-`, contains the fixed title
`FORMAL MEDICAL APPEAL`, and contains the letter body verbatim; the
function itself installs no handler, so it defines no error path of its
own. -/
theorem C9_generate_pdf (text : String) :
    generate_pdf text ≠ [] ∧
    (∃ rest, generate_pdf text = "%PDF-".data ++ rest) ∧
    (∃ a b, generate_pdf text = a ++ ("FORMAL MEDICAL APPEAL".data ++ b)) ∧
    (∃ a b, generate_pdf text = a ++ (text.data ++ b)) := by
  refine ⟨?_, ?_, ?_, ?_⟩
  · rw [generate_pdf_closed]
    simp
  · exact ⟨"1.4\n\n\nFORMAL MEDICAL APPEAL\n\n\n".data ++
      ((text.data ++ ['\n']) ++ "%%EOF".data), rfl⟩
  · exact ⟨"%PDF-1.4\n\n\n".data,
      "\n\n\n".data ++ ((text.data ++ ['\n']) ++ "%%EOF".data), rfl⟩
  · refine ⟨"%PDF-1.4\n\n\nFORMAL MEDICAL APPEAL\n\n\n".data,
      '\n' :: "%%EOF".data, ?_⟩
    rw [generate_pdf_closed, List.append_assoc]
    rfl

end ClaimShield
